import Mathlib

/-
Verification development for the mission-control-client repository.

The subject is the MissionControlClient wrapper class of src/index.js
(the v1.1.0 variant, the file that package.json designates as "main" and
"source"; the dist bundles are generated packaging).  The wrapper is
embedded shallowly: each socket handler and each public method becomes a
Lean function from the client state to a result that records the new
state, the network requests emitted on the socket, and the events emitted
on the internal nanobus event bus, in emission order.
-/

set_option autoImplicit false

namespace MissionControl

/-- Model of a JavaScript runtime value, as far as the client code
inspects values: it distinguishes null from undefined (the service view
getters use strict inequality against null), and it supports the
truthiness test used by guards such as the staleState check. -/
inductive JSValue where
  | null
  | undefined
  | bool (b : Bool)
  | num (n : Int)
  | str (s : String)
  | obj
deriving DecidableEq, Repr

/-- JavaScript truthiness of a modelled value. -/
def truthy : JSValue → Bool
  | JSValue.null => false
  | JSValue.undefined => false
  | JSValue.bool b => b
  | JSValue.num n => n != 0
  | JSValue.str s => s != ""
  | JSValue.obj => true

/-- The SOCKET_ERROR enumeration of src/index.js (v1.1.0): GENERAL,
TIMEOUT, NO_ATTEMPTS_LEFT, AUTH_FAILED, AUTH_TIMEOUT.  The older bundled
variant names the invalid-credential value AUTH_INVALID_TOKEN instead of
AUTH_FAILED; the current source uses AUTH_FAILED. -/
inductive SOCKET_ERROR where
  | GENERAL
  | TIMEOUT
  | NO_ATTEMPTS_LEFT
  | AUTH_FAILED
  | AUTH_TIMEOUT
deriving DecidableEq, Repr

/-- The AUTH_* subset of SOCKET_ERROR: the kinds an authentication
failure may carry (invalid credential vs no response in time). -/
def isAuthErrorKind : SOCKET_ERROR → Bool
  | SOCKET_ERROR.AUTH_FAILED => true
  | SOCKET_ERROR.AUTH_TIMEOUT => true
  | _ => false

/-- The DISCONNECT_REASON enumeration of src/index.js. -/
inductive DISCONNECT_REASON where
  | UNKNOWN
  | SERVER_DISCONNECT
  | CLIENT_DISCONNECT
  | PING_TIMEOUT
deriving DecidableEq, Repr

/-- A network request emitted on the socket by the wrapper
(socket.emit): the acknowledged authenticate handshake, and the
subscribe and unsubscribe registrations. -/
inductive NetRequest where
  | authenticate (token : String)
  | subscribe (service : String)
  | unsubscribe (service : String)
deriving DecidableEq, Repr

/-- Recognises an unsubscribe request. -/
def isUnsubscribeReq : NetRequest → Bool
  | NetRequest.unsubscribe _ => true
  | _ => false

/-- An emission on the internal event bus (this.eventBus.emit).  The
four normalized lifecycle events carry their documented payloads; the
wildcard interceptor emits under the namespaced key recorded in
internalKey; the sync handler emits under the per-service sync key.  The
second argument of the error emission (the underlying error object)
carries no inspected structure and is not modelled. -/
inductive BusEvent where
  | connect
  | disconnect (reason : DISCONNECT_REASON)
  | reconnecting (attempt : Nat)
  | error (kind : SOCKET_ERROR)
  | internal (internalKey : String) (args : List JSValue)
  | sync (service : String) (state : JSValue)
deriving DecidableEq, Repr

/-- Recognises the normalized connect bus event. -/
def isBusConnect : BusEvent → Bool
  | BusEvent.connect => true
  | _ => false

/-- Association-list lookup, the model of reading a property of a plain
JS object (this._services[name], this._stateCache[name]): the first
binding of the key, none when the key is absent. -/
def alistLookup {α : Type} : List (String × α) → String → Option α
  | [], _ => none
  | (k, v) :: rest, key => if k = key then some v else alistLookup rest key

/-- Association-list assignment, the model of writing a property of a
plain JS object: an existing key keeps its position, a new key is
appended (JS object key order). -/
def alistInsert {α : Type} : List (String × α) → String → α → List (String × α)
  | [], key, v => [(key, v)]
  | (k, w) :: rest, key, v =>
      if k = key then (k, v) :: rest else (k, w) :: alistInsert rest key v

/-- Association-list removal, the model of the delete operator on a
plain JS object property. -/
def alistErase {α : Type} : List (String × α) → String → List (String × α)
  | [], _ => []
  | (k, w) :: rest, key => if k = key then rest else (k, w) :: alistErase rest key

/-- The mutable fields of a MissionControlClient instance that the
claims concern: the auth token (this.authToken, fixed at construction),
the readiness flag (this.ready), the subscription registry
(this._services, mapping a service name to its listener count), and the
state cache (this._stateCache). -/
structure ClientState where
  authToken : String
  ready : Bool
  services : List (String × Int)
  stateCache : List (String × JSValue)
deriving DecidableEq, Repr

/-- The state produced by the constructor (before any socket event):
ready is false and the registry and cache are empty.  The constructor
also validates that the url and token are nonempty, which is outside the
claims. -/
def initState (token : String) : ClientState :=
  { authToken := token, ready := false, services := [], stateCache := [] }

/-- The result of running one handler or method call: the successor
state, the network requests emitted on the socket, and the events
emitted on the internal bus, each in emission order. -/
structure HandlerResult where
  state : ClientState
  net : List NetRequest
  bus : List BusEvent
deriving DecidableEq, Repr

/-- Outcome of the awaited authenticate acknowledgement inside the
connect handler: the server response resolves the promise (no error
field) or rejects it (response.error set, or the emit errors). -/
inductive AuthOutcome where
  | success
  | failure
deriving DecidableEq, Repr

/-- The names the wildcard interceptor filters out: the wrapper claims
these four normalized lifecycle events for itself. -/
def lifecycleNames : List String := ["connect", "disconnect", "reconnecting", "error"]

/-- The socket.on star handler installed by _setupSocketHandlers: an
inbound transport event whose name is not one of the four normalized
lifecycle names is republished on the internal bus under the namespaced
key internal:name with its arguments; a lifecycle name is dropped so
that bus listeners are not double-delivered. -/
def wildcardEmit (event : String) (args : List JSValue) : List BusEvent :=
  if event ∈ lifecycleNames then []
  else [BusEvent.internal ("internal:" ++ event) args]

/-- The socket.on connect handler of _setupSocketHandlers: set ready
false, await the acknowledged authenticate request carrying the token;
on success set ready true, re-send a subscribe request for every service
in the registry (for-in over this._services, registry order), and emit
the normalized connect on the bus; on rejection set ready false and emit
error AUTH_FAILED.  The commented-out pending-unsubscribe drain in the
source is absent from this variant, so nothing else is emitted. -/
def connectHandler (s : ClientState) (auth : AuthOutcome) : HandlerResult :=
  match auth with
  | AuthOutcome.success =>
      { state := { s with ready := true },
        net := NetRequest.authenticate s.authToken ::
          s.services.map (fun p => NetRequest.subscribe p.1),
        bus := [BusEvent.connect] }
  | AuthOutcome.failure =>
      { state := { s with ready := false },
        net := [NetRequest.authenticate s.authToken],
        bus := [BusEvent.error SOCKET_ERROR.AUTH_FAILED] }

/-- The switch statement of the socket.on disconnect handler, mapping
the raw transport reason string to a DISCONNECT_REASON value. -/
def classifyDisconnectReason (reason : String) : DISCONNECT_REASON :=
  if reason = "io server disconnect" then DISCONNECT_REASON.SERVER_DISCONNECT
  else if reason = "io client disconnect" then DISCONNECT_REASON.CLIENT_DISCONNECT
  else if reason = "ping timeout" then DISCONNECT_REASON.CLIENT_DISCONNECT
  else DISCONNECT_REASON.UNKNOWN

/-- The socket.on disconnect handler: classify the reason, set ready
false, emit the normalized disconnect carrying the classification. -/
def disconnectHandler (s : ClientState) (reason : String) : HandlerResult :=
  { state := { s with ready := false },
    net := [],
    bus := [BusEvent.disconnect (classifyDisconnectReason reason)] }

/-- The socket.on reconnect_attempt handler: assign ready false and emit
the normalized reconnecting event with the attempt number. -/
def reconnectAttemptHandler (s : ClientState) (attempt : Nat) : HandlerResult :=
  { state := { s with ready := false },
    net := [],
    bus := [BusEvent.reconnecting attempt] }

/-- The socket.on sync handler: when the named service has no registry
entry, only a warning is logged (no state change, no bus emission);
otherwise the pushed state is written to the state cache and republished
on the bus under the per-service sync key.  A present registry entry is
an object and hence truthy, so the source guard reduces to presence. -/
def syncHandler (s : ClientState) (serviceName : String) (st : JSValue) : HandlerResult :=
  match alistLookup s.services serviceName with
  | none => { state := s, net := [], bus := [] }
  | some _ =>
      { state := { s with stateCache := alistInsert s.stateCache serviceName st },
        net := [],
        bus := [BusEvent.sync serviceName st] }

/-- The socket.on authentication_timeout handler of _setupErrorHandlers:
set ready false and emit error AUTH_TIMEOUT. -/
def authenticationTimeoutHandler (s : ClientState) : HandlerResult :=
  { state := { s with ready := false },
    net := [],
    bus := [BusEvent.error SOCKET_ERROR.AUTH_TIMEOUT] }

/-- The socket.on connect_error handler: emit error GENERAL. -/
def connectErrorHandler (s : ClientState) : HandlerResult :=
  { state := { s with ready := false },
    net := [],
    bus := [BusEvent.error SOCKET_ERROR.GENERAL] }

/-- The socket.on connect_timeout handler: emit error TIMEOUT. -/
def connectTimeoutHandler (s : ClientState) : HandlerResult :=
  { state := { s with ready := false },
    net := [],
    bus := [BusEvent.error SOCKET_ERROR.TIMEOUT] }

/-- The socket.on reconnect_failed handler: emit error NO_ATTEMPTS_LEFT. -/
def reconnectFailedHandler (s : ClientState) : HandlerResult :=
  { state := { s with ready := false },
    net := [],
    bus := [BusEvent.error SOCKET_ERROR.NO_ATTEMPTS_LEFT] }

/-- The registry effect of the service method: a name already present in
this._services has its listener count incremented with no network
traffic; a new name is entered with count 1 and, when the client is
ready, a subscribe request is sent immediately (when not ready, nothing
is sent; the registry entry itself makes the connect handler send it on
the next ready transition).  Registering the bus listener and the stale
state first paint delivery touch neither the state nor the socket and
carry no claim, so they contribute nothing to the result. -/
def serviceCall (s : ClientState) (name : String) : HandlerResult :=
  match alistLookup s.services name with
  | some n =>
      { state := { s with services := alistInsert s.services name (n + 1) },
        net := [],
        bus := [] }
  | none =>
      { state := { s with services := alistInsert s.services name 1 },
        net := if s.ready then [NetRequest.subscribe name] else [],
        bus := [] }

/-- The value of the property read this.socket.ready inside the
unsubscribe disposer of the service method.  No statement in the
repository ever assigns a ready property on the socket object (the
readiness flag the client maintains is this.ready on the client itself),
and socket.io-client sockets carry no such field, so the property access
evaluates to undefined. -/
def socketReadyProperty : JSValue := JSValue.undefined

/-- The unsubscribe disposer returned by the service method: decrement
the listener count of the entry (reading a missing entry throws in the
source, modelled as none); when the decremented count is at or below
zero, delete the registry entry and send the unsubscribe request only if
this.socket.ready is truthy. -/
def disposeCall (s : ClientState) (name : String) : Option HandlerResult :=
  match alistLookup s.services name with
  | none => none
  | some n =>
      if n - 1 ≤ 0 then
        some { state := { s with services := alistErase s.services name },
               net := if truthy socketReadyProperty then [NetRequest.unsubscribe name] else [],
               bus := [] }
      else
        some { state := { s with services := alistInsert s.services name (n - 1) },
               net := [],
               bus := [] }

/-- One externally triggered operation on the wrapper: a public method
call or an inbound transport event. -/
inductive Op where
  | callService (name : String)
  | dispose (name : String)
  | transportConnect (auth : AuthOutcome)
  | transportDisconnect (reason : String)
  | transportReconnectAttempt (attempt : Nat)
  | transportSync (service : String) (st : JSValue)
  | transportAuthTimeout
deriving DecidableEq, Repr

/-- Dispatch one operation to its handler. -/
def step (s : ClientState) : Op → Option HandlerResult
  | Op.callService name => some (serviceCall s name)
  | Op.dispose name => disposeCall s name
  | Op.transportConnect auth => some (connectHandler s auth)
  | Op.transportDisconnect reason => some (disconnectHandler s reason)
  | Op.transportReconnectAttempt attempt => some (reconnectAttemptHandler s attempt)
  | Op.transportSync service st => some (syncHandler s service st)
  | Op.transportAuthTimeout => some (authenticationTimeoutHandler s)

/-- Run a sequence of operations from a state, concatenating the network
requests and bus emissions in order; none when a step throws. -/
def run (s : ClientState) : List Op → Option HandlerResult
  | [] => some { state := s, net := [], bus := [] }
  | op :: rest =>
      (step s op).bind fun r =>
        (run r.state rest).map fun r2 =>
          { state := r2.state, net := r.net ++ r2.net, bus := r.bus ++ r2.bus }

/-- The ready getter of the view object returned by the service method:
the JS expression reads the cache entry (undefined when absent) and
compares it against null with strict inequality. -/
def serviceViewReady (cache : List (String × JSValue)) (name : String) : Bool :=
  (alistLookup cache name).getD JSValue.undefined != JSValue.null

/-- The state getter of the view object returned by the service method:
the JS expression yields the cache entry when it is truthy and null
otherwise. -/
def serviceViewState (cache : List (String × JSValue)) (name : String) : JSValue :=
  let v := (alistLookup cache name).getD JSValue.undefined
  if truthy v then v else JSValue.null

/-
Helper lemmas shared by the claim theorems.
-/

/-- A map that produces only subscribe requests contains no unsubscribe
request. -/
theorem filter_isUnsubscribeReq_map_subscribe (l : List (String × Int)) :
    (l.map (fun p => NetRequest.subscribe p.1)).filter isUnsubscribeReq = [] := by
  induction l with
  | nil => rfl
  | cons p rest ih => simp [List.filter, isUnsubscribeReq, ih]

/-- Looking up a key after an association-list assignment: the assigned
key yields the new value, any other key is unaffected. -/
theorem alistLookup_alistInsert {α : Type} (l : List (String × α)) (key k : String) (v : α) :
    alistLookup (alistInsert l key v) k = if key = k then some v else alistLookup l k := by
  induction l with
  | nil =>
      by_cases h : key = k <;> simp [alistInsert, alistLookup, h]
  | cons p rest ih =>
      obtain ⟨pk, pv⟩ := p
      by_cases hpk : pk = key
      · subst hpk
        by_cases h : pk = k <;> simp [alistInsert, alistLookup, h]
      · by_cases h : pk = k
        · subst h
          have : ¬ key = pk := fun hkk => hpk hkk.symm
          simp [alistInsert, alistLookup, hpk, this]
        · simp [alistInsert, alistLookup, hpk, h, ih]

/-- Running an appended operation list splits into the two runs, with
the emissions concatenated. -/
theorem run_append (l1 l2 : List Op) :
    ∀ s : ClientState,
      run s (l1 ++ l2)
        = (run s l1).bind fun r =>
            (run r.state l2).map fun r2 =>
              { state := r2.state, net := r.net ++ r2.net, bus := r.bus ++ r2.bus } := by
  induction l1 with
  | nil =>
      intro s
      simp [run]
  | cons op rest ih =>
      intro s
      simp only [List.cons_append, run]
      cases step s op with
      | none => rfl
      | some r =>
          simp only [Option.some_bind, List.append_eq]
          rw [ih r.state]
          cases hrest : run r.state rest with
          | none => simp [hrest]
          | some r1 =>
              simp only [hrest, Option.some_bind, Option.map_some]
              cases hl2 : run r1.state l2 with
              | none => simp [hl2]
              | some r2 =>
                  simp [hl2, List.append_assoc]

/-- Repeated service calls on a key already held by the registry only
raise its listener count: no network request and no bus emission. -/
theorem run_replicate_callService (token K : String) (cache : List (String × JSValue)) :
    ∀ (m : Nat) (c : Int),
      run { authToken := token, ready := false, services := [(K, c)], stateCache := cache }
          (List.replicate m (Op.callService K))
        = some { state := { authToken := token, ready := false,
                            services := [(K, c + m)], stateCache := cache },
                 net := [], bus := [] } := by
  intro m
  induction m with
  | zero =>
      intro c
      simp [run]
  | succ m ih =>
      intro c
      rw [List.replicate_succ]
      have hstep :
          run { authToken := token, ready := false, services := [(K, c)], stateCache := cache }
              (Op.callService K :: List.replicate m (Op.callService K))
            = (run { authToken := token, ready := false, services := [(K, c + 1)],
                     stateCache := cache }
                  (List.replicate m (Op.callService K))).map fun r2 =>
                { state := r2.state, net := [] ++ r2.net, bus := [] ++ r2.bus } := by
        simp [run, step, serviceCall, alistLookup, alistInsert]
      rw [hstep, ih (c + 1)]
      have hc : c + 1 + (m : Int) = c + ((m + 1 : Nat) : Int) := by push_cast; ring
      simp [hc]

/-
Claim theorems.
-/

/-- C1: for every run in which the transport fires its raw connect
event, the wrapper emits the normalized connect event only after the
authenticate request resolves successfully (the authenticate request is
emitted first, and a rejected handshake emits no connect at all), emits
it exactly once per successful authentication (the bus output of a
successful cycle is exactly one connect), and the wildcard interceptor
never republishes the raw transport connect onto the internal bus. -/
theorem C1_connect_only_after_auth :
    ∀ (s : ClientState) (args : List JSValue),
      (connectHandler s AuthOutcome.success).bus = [BusEvent.connect] ∧
      (connectHandler s AuthOutcome.success).net.head?
        = some (NetRequest.authenticate s.authToken) ∧
      (connectHandler s AuthOutcome.failure).bus.filter isBusConnect = [] ∧
      wildcardEmit "connect" args = [] := by
  intro s args
  refine ⟨rfl, rfl, ?_, ?_⟩
  · simp [connectHandler, List.filter, isBusConnect]
  · simp [wildcardEmit, lifecycleNames]

/-- C2: disconnect-reason classification is a pure function of the
transport reason string, mapping io server disconnect to
SERVER_DISCONNECT, io client disconnect to CLIENT_DISCONNECT, ping
timeout to CLIENT_DISCONNECT, and every other string to UNKNOWN; the
normalized disconnect event carries exactly this classification. -/
theorem C2_disconnect_classification :
    classifyDisconnectReason "io server disconnect" = DISCONNECT_REASON.SERVER_DISCONNECT ∧
    classifyDisconnectReason "io client disconnect" = DISCONNECT_REASON.CLIENT_DISCONNECT ∧
    classifyDisconnectReason "ping timeout" = DISCONNECT_REASON.CLIENT_DISCONNECT ∧
    (∀ r : String, r ≠ "io server disconnect" → r ≠ "io client disconnect" →
      r ≠ "ping timeout" → classifyDisconnectReason r = DISCONNECT_REASON.UNKNOWN) ∧
    (∀ (s : ClientState) (r : String),
      (disconnectHandler s r).bus = [BusEvent.disconnect (classifyDisconnectReason r)]) := by
  refine ⟨rfl, rfl, rfl, ?_, ?_⟩
  · intro r h1 h2 h3
    simp [classifyDisconnectReason, h1, h2, h3]
  · intro s r
    rfl

/-- Witness for C2 at a concrete unknown reason string. -/
theorem C2_disconnect_classification_witness :
    classifyDisconnectReason "transport close" = DISCONNECT_REASON.UNKNOWN :=
  C2_disconnect_classification.2.2.2.1 "transport close"
    (by decide) (by decide) (by decide)

/-- C3 is a code bug; this theorem evaluates the code at the failing
input.  With the wrapper ready (this.ready = true), one service call on
the key followed by one invocation of the returned disposer leaves the
key absent from the registry, but the emitted requests are exactly the
initial subscribe: no unsubscribe request is sent, because the disposer
guards the emission with this.socket.ready, a property no code ever
assigns, instead of the readiness flag this.ready. -/
theorem C3_dispose_sends_no_unsubscribe :
    run { authToken := "token123", ready := true, services := [], stateCache := [] }
      [Op.callService "update:videoQueue", Op.dispose "update:videoQueue"]
    = some { state := { authToken := "token123", ready := true, services := [],
                        stateCache := [] },
             net := [NetRequest.subscribe "update:videoQueue"],
             bus := [] } := by
  decide

/-- C4: for any number n of service calls on the same key made while
the wrapper is not ready (the freshly constructed, disconnected client),
no subscribe network request is sent at call time (the run of the calls
emits nothing), and once the wrapper reaches ready through a successful
connect and authentication, the emitted requests are exactly the
authenticate handshake followed by a single subscribe for that key. -/
theorem C4_offline_subscribe_once (n : Nat) (hn : 1 ≤ n) (K token : String) :
    run (initState token) (List.replicate n (Op.callService K))
      = some { state := { authToken := token, ready := false,
                          services := [(K, (n : Int))], stateCache := [] },
               net := [], bus := [] } ∧
    run (initState token)
        (List.replicate n (Op.callService K) ++ [Op.transportConnect AuthOutcome.success])
      = some { state := { authToken := token, ready := true,
                          services := [(K, (n : Int))], stateCache := [] },
               net := [NetRequest.authenticate token, NetRequest.subscribe K],
               bus := [BusEvent.connect] } := by
  obtain ⟨m, rfl⟩ : ∃ m, n = m + 1 := ⟨n - 1, by omega⟩
  have hcalls :
      run (initState token) (List.replicate (m + 1) (Op.callService K))
        = some { state := { authToken := token, ready := false,
                            services := [(K, ((m + 1 : Nat) : Int))], stateCache := [] },
                 net := [], bus := [] } := by
    rw [List.replicate_succ]
    have hfirst :
        run (initState token) (Op.callService K :: List.replicate m (Op.callService K))
          = (run { authToken := token, ready := false, services := [(K, 1)], stateCache := [] }
                (List.replicate m (Op.callService K))).map fun r2 =>
              { state := r2.state, net := [] ++ r2.net, bus := [] ++ r2.bus } := by
      simp [run, step, serviceCall, alistLookup, alistInsert, initState]
    rw [hfirst, run_replicate_callService]
    have hc : (1 : Int) + (m : Int) = ((m + 1 : Nat) : Int) := by push_cast; ring
    simp [hc]
  refine ⟨hcalls, ?_⟩
  rw [run_append, hcalls]
  simp [run, step, connectHandler, Option.bind]

/-- Witness for C4 at two service calls on a concrete key. -/
theorem C4_offline_subscribe_once_witness :
    run (initState "token123") (List.replicate 2 (Op.callService "update:videoQueue"))
      = some { state := { authToken := "token123", ready := false,
                          services := [("update:videoQueue", ((2 : Nat) : Int))],
                          stateCache := [] },
               net := [], bus := [] } ∧
    run (initState "token123")
        (List.replicate 2 (Op.callService "update:videoQueue")
          ++ [Op.transportConnect AuthOutcome.success])
      = some { state := { authToken := "token123", ready := true,
                          services := [("update:videoQueue", ((2 : Nat) : Int))],
                          stateCache := [] },
               net := [NetRequest.authenticate "token123",
                       NetRequest.subscribe "update:videoQueue"],
               bus := [BusEvent.connect] } :=
  C4_offline_subscribe_once 2 (by omega) "update:videoQueue" "token123"

/-- C5 counterexample: a key whose listener count dropped to zero while
the wrapper was offline produces no unsubscribe request on the following
ready transition: the whole run emits exactly the authenticate request
and the normalized connect, and no pending-unsubscribe entry is drained,
because this variant maintains no pending-unsubscribe queue (the drain
in the connect handler is commented out) and the disposer sent
nothing while offline. -/
theorem C5_no_pending_unsubscribe_drain :
    run (initState "token123")
        [Op.callService "update:videoQueue", Op.dispose "update:videoQueue",
         Op.transportConnect AuthOutcome.success]
      = some { state := { authToken := "token123", ready := true,
                          services := [], stateCache := [] },
               net := [NetRequest.authenticate "token123"],
               bus := [BusEvent.connect] } := by
  decide

/-- C5 amended: on every ready transition the wrapper re-sends a
subscribe request for every key present in the subscription registry, in
registry order, immediately after the authenticate request; no
unsubscribe request is drained (the variant keeps no pending-unsubscribe
queue), and the bus output is the single normalized connect. -/
theorem C5_resubscribe_on_ready :
    ∀ s : ClientState,
      (connectHandler s AuthOutcome.success).net
        = NetRequest.authenticate s.authToken ::
            s.services.map (fun p => NetRequest.subscribe p.1) ∧
      (connectHandler s AuthOutcome.success).net.filter isUnsubscribeReq = [] ∧
      (connectHandler s AuthOutcome.success).bus = [BusEvent.connect] := by
  intro s
  refine ⟨rfl, ?_, rfl⟩
  simp [connectHandler, List.filter, isUnsubscribeReq,
    filter_isUnsubscribeReq_map_subscribe]

/-- C6: a failed authentication exchange leaves the readiness flag
false, emits exactly one normalized error event whose kind is one of the
AUTH_* values (AUTH_FAILED for a rejected handshake, AUTH_TIMEOUT for
the authentication_timeout path), and a subsequent successful transport
reconnect still reaches the ready state and emits connect. -/
theorem C6_auth_failure_behaviour :
    ∀ s : ClientState,
      (connectHandler s AuthOutcome.failure).state.ready = false ∧
      (connectHandler s AuthOutcome.failure).bus
        = [BusEvent.error SOCKET_ERROR.AUTH_FAILED] ∧
      isAuthErrorKind SOCKET_ERROR.AUTH_FAILED = true ∧
      (authenticationTimeoutHandler s).state.ready = false ∧
      (authenticationTimeoutHandler s).bus
        = [BusEvent.error SOCKET_ERROR.AUTH_TIMEOUT] ∧
      isAuthErrorKind SOCKET_ERROR.AUTH_TIMEOUT = true ∧
      (connectHandler (connectHandler s AuthOutcome.failure).state
          AuthOutcome.success).state.ready = true ∧
      (connectHandler (connectHandler s AuthOutcome.failure).state
          AuthOutcome.success).bus = [BusEvent.connect] := by
  intro s
  exact ⟨rfl, rfl, rfl, rfl, rfl, rfl, rfl, rfl⟩

/-- C7: the wildcard interceptor republishes every inbound transport
event whose name is not one of the four normalized lifecycle names onto
the internal bus under the namespaced key internal:name with its
arguments, and drops events named connect, disconnect, reconnecting or
error so lifecycle listeners are never double-delivered. -/
theorem C7_wildcard_filter :
    ∀ (event : String) (args : List JSValue),
      (event ∈ lifecycleNames → wildcardEmit event args = []) ∧
      (event ∉ lifecycleNames →
        wildcardEmit event args = [BusEvent.internal ("internal:" ++ event) args]) := by
  intro event args
  constructor
  · intro h
    simp [wildcardEmit, h]
  · intro h
    simp [wildcardEmit, h]

/-- Witness for C7: the lifecycle name connect is dropped, the
non-lifecycle name sync is republished under the namespaced key. -/
theorem C7_wildcard_filter_witness :
    wildcardEmit "connect" [] = [] ∧
    wildcardEmit "sync" [JSValue.obj]
      = [BusEvent.internal "internal:sync" [JSValue.obj]] :=
  ⟨(C7_wildcard_filter "connect" []).1 (by decide),
   (C7_wildcard_filter "sync" [JSValue.obj]).2 (by decide)⟩

/-- C8 counterexample: from a state whose readiness flag is true, one
transport reconnect_attempt event flips the readiness flag to false, so
the state is not left unchanged as the claim says. -/
theorem C8_reconnect_attempt_changes_ready :
    (reconnectAttemptHandler
        { authToken := "token123", ready := true,
          services := [("update:videoQueue", 1)], stateCache := [] }
        3).state.ready = false ∧
    ({ authToken := "token123", ready := true,
       services := [("update:videoQueue", 1)], stateCache := [] } : ClientState).ready
      = true := by
  decide

/-- C8 amended: on every transport reconnect_attempt event the handler
assigns the readiness flag false, leaves the subscription registry and
the state cache unchanged, sends no network request, and emits exactly
the normalized reconnecting event carrying the attempt number. -/
theorem C8_reconnect_attempt_amended :
    ∀ (s : ClientState) (attempt : Nat),
      (reconnectAttemptHandler s attempt).state = { s with ready := false } ∧
      (reconnectAttemptHandler s attempt).state.services = s.services ∧
      (reconnectAttemptHandler s attempt).state.stateCache = s.stateCache ∧
      (reconnectAttemptHandler s attempt).net = [] ∧
      (reconnectAttemptHandler s attempt).bus = [BusEvent.reconnecting attempt] := by
  intro s attempt
  exact ⟨rfl, rfl, rfl, rfl, rfl⟩

/-- C9: for a service name with no entry in the state cache, the ready
getter of the service view returns true (the getter compares the cache
entry, undefined when absent, against null with strict inequality) and
the state getter returns null; the ready getter is false exactly when
the cached entry is the value null. -/
theorem C9_service_view_getters :
    ∀ (cache : List (String × JSValue)) (name : String),
      (alistLookup cache name = none →
        serviceViewReady cache name = true ∧
        serviceViewState cache name = JSValue.null) ∧
      (serviceViewReady cache name = false ↔
        (alistLookup cache name).getD JSValue.undefined = JSValue.null) := by
  intro cache name
  constructor
  · intro h
    simp [serviceViewReady, serviceViewState, h, truthy]
  · constructor
    · intro h
      simpa [serviceViewReady, bne_eq_false_iff_eq] using h
    · intro h
      simp [serviceViewReady, h]

/-- Witness for C9 at an empty cache: the view of a never-synced service
reports ready true and state null. -/
theorem C9_service_view_getters_witness :
    serviceViewReady [] "videoQueue" = true ∧
    serviceViewState [] "videoQueue" = JSValue.null :=
  (C9_service_view_getters [] "videoQueue").1 rfl

/-- C10: a sync transport event for a service name absent from the
subscription registry leaves the whole state (the state cache included)
unchanged and emits nothing on the internal bus or the socket; and every
entry of the state cache after any sync event either was already present
with the same value or is the pushed entry of a service that was
subscribed at the moment of the push. -/
theorem C10_sync_requires_subscription :
    ∀ (s : ClientState) (name : String) (st : JSValue),
      (alistLookup s.services name = none →
        syncHandler s name st = { state := s, net := [], bus := [] }) ∧
      (∀ (k : String) (v : JSValue),
        alistLookup (syncHandler s name st).state.stateCache k = some v →
        alistLookup s.stateCache k = some v ∨
          (k = name ∧ v = st ∧ (alistLookup s.services name).isSome = true)) := by
  intro s name st
  constructor
  · intro h
    simp [syncHandler, h]
  · intro k v hv
    cases hsvc : alistLookup s.services name with
    | none =>
        left
        simpa [syncHandler, hsvc] using hv
    | some c =>
        rw [syncHandler] at hv
        simp only [hsvc] at hv
        rw [alistLookup_alistInsert] at hv
        by_cases hk : name = k
        · subst hk
          right
          have h2 : st = v := by simpa using hv
          exact ⟨rfl, h2.symm, by simp [hsvc]⟩
        · left
          simpa [hk] using hv

/-- Witness for C10: a sync push for an unsubscribed service on the
fresh client changes nothing and emits nothing. -/
theorem C10_sync_requires_subscription_witness :
    syncHandler (initState "token123") "videoQueue" JSValue.obj
      = { state := initState "token123", net := [], bus := [] } :=
  (C10_sync_requires_subscription (initState "token123") "videoQueue" JSValue.obj).1 rfl

end MissionControl
